import Mathlib

/-!
Verification development for the NPC Manager MVP repository
(`npc_manager`, `ticketing_api`, seeding scripts).

Shallow embedding: the Python functions in `src/npc_manager/controls.py`,
`src/npc_manager/main.py` and `src/ticketing_api/main.py` are translated
into executable Lean definitions; databases become explicit record states,
HTTP exceptions become `Except` errors, and the external effects of one
`/action` call (the generated UUIDs, the current clock reading, the CLI
approval answer, and the downstream HTTP outcome) become explicit
parameters.  Timestamps are integers counted in minutes, matching the
units used by the write-limit guardrail's `timedelta` arithmetic.
-/

namespace NPCM

/-- JSON scalar values, covering the value shapes that appear in this
system's tool arguments and response payloads (strings, integers,
booleans, null). -/
inductive JVal where
  | str (s : String)
  | int (n : Int)
  | bool (b : Bool)
  | null
deriving DecidableEq, Repr

/-- An argument payload: a JSON object, modelled as an association list
of key/value pairs (a Python `dict`; keys are unique in any real dict). -/
abbrev Args := List (String × JVal)

/-- Python truthiness of an optional JSON value (`if not x:` semantics):
absent, `None`, `0`, `""` and `False` are falsy. -/
def jtruthy : Option JVal → Bool
  | none => false
  | some .null => false
  | some (.int n) => n ≠ 0
  | some (.str s) => s ≠ ""
  | some (.bool b) => b

/-- `dict.get(key)`: first value bound to `key`, if any. -/
def getArg (args : Args) (k : String) : Option JVal :=
  (args.find? (fun p => p.1 = k)).map Prod.snd

/-! ### SHA-256 over byte lists (for `hash_payload` in controls.py)

A faithful executable SHA-256: all words are `Nat` reduced mod `2^32`
where 32-bit overflow matters. -/

/-- 2^32, the modulus keeping every SHA-256 word within 32 bits. -/
def M32 : Nat := 4294967296

/-- 32-bit rotate-right of `x` by `n` places, truncated mod 2^32. -/
def rot32 (n x : Nat) : Nat := ((x <<< (32 - n)) ||| (x >>> n)) % M32

/-- The compression function's first state mix (uppercase sigma 0). -/
def mixA (x : Nat) : Nat := rot32 2 x ^^^ rot32 13 x ^^^ rot32 22 x

/-- The compression function's second state mix (uppercase sigma 1). -/
def mixE (x : Nat) : Nat := rot32 6 x ^^^ rot32 11 x ^^^ rot32 25 x

/-- The schedule's first word mix (lowercase sigma 0). -/
def mixW0 (x : Nat) : Nat := rot32 7 x ^^^ rot32 18 x ^^^ (x >>> 3)

/-- The schedule's second word mix (lowercase sigma 1). -/
def mixW1 (x : Nat) : Nat := rot32 17 x ^^^ rot32 19 x ^^^ (x >>> 10)

/-- The 64 SHA-256 round constants (fractional cube roots of the first
64 primes), in decimal. -/
def roundK : List Nat :=
  [1116352408, 1899447441, 3049323471, 3921009573, 961987163,
   1508970993, 2453635748, 2870763221, 3624381080, 310598401,
   607225278, 1426881987, 1925078388, 2162078206, 2614888103,
   3248222580, 3835390401, 4022224774, 264347078, 604807628,
   770255983, 1249150122, 1555081692, 1996064986, 2554220882,
   2821834349, 2952996808, 3210313671, 3336571891, 3584528711,
   113926993, 338241895, 666307205, 773529912, 1294757372,
   1396182291, 1695183700, 1986661051, 2177026350, 2456956037,
   2730485921, 2820302411, 3259730800, 3345764771, 3516065817,
   3600352804, 4094571909, 275423344, 430227734, 506948616,
   659060556, 883997877, 958139571, 1322822218, 1537002063,
   1747873779, 1955562222, 2024104815, 2227730452, 2361852424,
   2428436474, 2756734187, 3204031479, 3329325298]

/-- The 8 initial SHA-256 state words (fractional square roots of the
first 8 primes), in decimal. -/
def initHash : List Nat :=
  [1779033703, 3144134277, 1013904242, 2773480762,
   1359893119, 2600822924, 528734635, 1541459225]

/-- Big-endian byte rendering of `n` into `k` bytes. -/
def natToBytesBE (k n : Nat) : List Nat :=
  (List.range k).map (fun i => (n >>> (8 * (k - 1 - i))) % 256)

/-- SHA-256 padding: append `0x80`, zero bytes up to 56 mod 64, then the
bit length as 8 big-endian bytes. -/
def sha256pad (msg : List Nat) : List Nat :=
  let len := msg.length
  let zeros := (64 + 56 - ((len + 1) % 64)) % 64
  msg ++ [0x80] ++ List.replicate zeros 0 ++ natToBytesBE 8 ((8 * len) % 2 ^ 64)

/-- Combine 4 consecutive bytes (big-endian) into each of 16 words. -/
def bytesToWords (chunk : List Nat) : List Nat :=
  (List.range 16).map (fun i =>
    (chunk.getD (4 * i) 0) <<< 24 ||| (chunk.getD (4 * i + 1) 0) <<< 16 |||
    (chunk.getD (4 * i + 2) 0) <<< 8 ||| chunk.getD (4 * i + 3) 0)

/-- Message-schedule extension of the 16 chunk words to 64 words. -/
def extendWords (w16 : List Nat) : List Nat :=
  (List.range 48).foldl
    (fun w _ =>
      let i := w.length
      w ++ [(mixW1 (w.getD (i - 2) 0) + w.getD (i - 7) 0 +
             mixW0 (w.getD (i - 15) 0) + w.getD (i - 16) 0) % M32])
    w16

/-- One SHA-256 compression round. -/
def sha256round (st : List Nat) (kw : Nat × Nat) : List Nat :=
  let a := st.getD 0 0
  let b := st.getD 1 0
  let c := st.getD 2 0
  let d := st.getD 3 0
  let e := st.getD 4 0
  let f := st.getD 5 0
  let g := st.getD 6 0
  let h := st.getD 7 0
  let ch := (e &&& f) ^^^ (((M32 - 1) ^^^ e) &&& g)
  let maj := (a &&& b) ^^^ (a &&& c) ^^^ (b &&& c)
  let t1 := (h + mixE e + ch + kw.1 + kw.2) % M32
  let t2 := (mixA a + maj) % M32
  [(t1 + t2) % M32, a, b, c, (d + t1) % M32, e, f, g]

/-- Compress one 64-byte chunk into the running hash state. -/
def sha256chunk (hst : List Nat) (chunk : List Nat) : List Nat :=
  let w := extendWords (bytesToWords chunk)
  let st := (roundK.zip w).foldl sha256round hst
  List.zipWith (fun x y => (x + y) % M32) hst st

/-- SHA-256 digest of a byte list, as the 8 final 32-bit words. -/
def sha256words (msg : List Nat) : List Nat :=
  let padded := sha256pad msg
  (List.range (padded.length / 64)).foldl
    (fun hst i => sha256chunk hst ((padded.drop (64 * i)).take 64)) initHash

/-- Lowercase hex digit for a nibble. -/
def hexDigit (n : Nat) : Char :=
  if n < 10 then Char.ofNat (48 + n) else Char.ofNat (87 + n)

/-- Fixed-width lowercase hex rendering of `n` in `k` digits. -/
def toHexFixed (k n : Nat) : String :=
  String.mk ((List.range k).map (fun i => hexDigit ((n >>> (4 * (k - 1 - i))) % 16)))

/-- Lowercase-hex SHA-256 digest of a byte list (`hashlib.sha256(...).hexdigest()`). -/
def sha256hex (msg : List Nat) : String :=
  String.join ((sha256words msg).map (toHexFixed 8))

/-- UTF-8 encoding of one character (`str.encode()`). -/
def utf8Char (c : Char) : List Nat :=
  let n := c.toNat
  if n < 0x80 then [n]
  else if n < 0x800 then [0xc0 ||| (n >>> 6), 0x80 ||| (n &&& 0x3f)]
  else if n < 0x10000 then
    [0xe0 ||| (n >>> 12), 0x80 ||| ((n >>> 6) &&& 0x3f), 0x80 ||| (n &&& 0x3f)]
  else
    [0xf0 ||| (n >>> 18), 0x80 ||| ((n >>> 12) &&& 0x3f),
     0x80 ||| ((n >>> 6) &&& 0x3f), 0x80 ||| (n &&& 0x3f)]

/-- UTF-8 bytes of a string. -/
def utf8Bytes (s : String) : List Nat :=
  s.data.flatMap utf8Char

/-! ### Canonical JSON rendering (`json.dumps(payload, sort_keys=True)`)

Default CPython options: separators `", "` and `": "`, `ensure_ascii=True`
(everything outside `0x20`-`0x7e` escaped, named escapes for the usual
control characters, `\uXXXX` otherwise, surrogate pairs above `0xffff`). -/

/-- JSON escape of one character, per CPython's ascii encoder. -/
def jsonEscapeChar (c : Char) : String :=
  let n := c.toNat
  if c = '"' then "\\\""
  else if c = '\\' then "\\\\"
  else if n = 10 then "\\n"
  else if n = 13 then "\\r"
  else if n = 9 then "\\t"
  else if n = 8 then "\\b"
  else if n = 12 then "\\f"
  else if 0x20 ≤ n ∧ n ≤ 0x7e then String.mk [c]
  else if n ≤ 0xffff then "\\u" ++ toHexFixed 4 n
  else
    "\\u" ++ toHexFixed 4 (0xd800 + ((n - 0x10000) >>> 10)) ++
    "\\u" ++ toHexFixed 4 (0xdc00 + ((n - 0x10000) &&& 0x3ff))

/-- JSON string literal rendering. -/
def jsonStr (s : String) : String :=
  "\"" ++ String.join (s.data.map jsonEscapeChar) ++ "\""

/-- JSON rendering of a scalar value. -/
def jsonVal : JVal → String
  | .str s => jsonStr s
  | .int n => toString n
  | .bool b => if b then "true" else "false"
  | .null => "null"

/-- Code-point lexicographic comparison of character lists: exactly the
string ordering Python's `sorted` / `sort_keys=True` uses. -/
def charListLe : List Char → List Char → Bool
  | [], _ => true
  | _ :: _, [] => false
  | a :: as, b :: bs => if a < b then true else if b < a then false else charListLe as bs

/-- Key ordering used by `sort_keys=True`: compare the keys. -/
def keyLe (a b : String × JVal) : Prop := charListLe a.1.data b.1.data = true

instance : DecidableRel keyLe := fun a b =>
  inferInstanceAs (Decidable (charListLe a.1.data b.1.data = true))

/-- Strict key ordering: sorting by keys is unambiguous on payloads with
distinct keys. -/
def keyLt (a b : String × JVal) : Prop := keyLe a b ∧ a.1 ≠ b.1

instance : IsTotal (String × JVal) keyLe :=
  ⟨fun x y => by
    show charListLe x.1.data y.1.data = true ∨ charListLe y.1.data x.1.data = true
    generalize x.1.data = as
    generalize y.1.data = bs
    induction as generalizing bs with
    | nil => exact Or.inl rfl
    | cons a as ih =>
      cases bs with
      | nil => exact Or.inr rfl
      | cons b bs =>
        rcases lt_trichotomy a b with h | h | h
        · left; simp [charListLe, h]
        · subst h
          rcases ih bs with h' | h' <;> [left; right] <;> simp [charListLe, h', lt_irrefl]
        · right; simp [charListLe, h]⟩

instance : IsTrans (String × JVal) keyLe :=
  ⟨fun x y z hxy hyz => by
    show charListLe x.1.data z.1.data = true
    revert hxy hyz
    show charListLe x.1.data y.1.data = true → charListLe y.1.data z.1.data = true →
      charListLe x.1.data z.1.data = true
    generalize x.1.data = as
    generalize y.1.data = bs
    generalize z.1.data = cs
    induction as generalizing bs cs with
    | nil => intro _ _; rfl
    | cons a as ih =>
      intro h1 h2
      cases bs with
      | nil => simp [charListLe] at h1
      | cons b bs =>
        cases cs with
        | nil => simp [charListLe] at h2
        | cons c cs =>
          simp only [charListLe] at h1 h2 ⊢
          by_cases hab : a < b
          · have hbc : b ≤ c := by
              by_contra hc
              push_neg at hc
              simp [not_lt.mpr (le_of_lt hc), hc] at h2
            have hac : a < c := lt_of_lt_of_le hab hbc
            simp [hac]
          · by_cases hba : b < a
            · simp [hab, hba] at h1
            · have hab' : a = b := le_antisymm (not_lt.mp hba) (not_lt.mp hab)
              subst hab'
              by_cases hac : a < c
              · simp [hac]
              · by_cases hca : c < a
                · simp [hac, hca] at h2
                · simp [hab, hba] at h1
                  simp [hac, hca] at h2 ⊢
                  exact ih bs cs h1 h2⟩

instance : IsAntisymm (String × JVal) keyLt :=
  ⟨fun x y h h' => by
    have key : ∀ as bs, charListLe as bs = true → charListLe bs as = true → as = bs := by
      intro as
      induction as with
      | nil =>
        intro bs h1 h2
        cases bs with
        | nil => rfl
        | cons b bs => simp [charListLe] at h2
      | cons a as ih =>
        intro bs h1 h2
        cases bs with
        | nil => simp [charListLe] at h1
        | cons b bs =>
          simp only [charListLe] at h1 h2
          by_cases hab : a < b
          · simp [hab, asymm hab] at h2
          · by_cases hba : b < a
            · simp [hab, hba] at h1
            · have : a = b := le_antisymm (not_lt.mp hba) (not_lt.mp hab)
              subst this
              simp [hab, hba] at h1 h2
              rw [ih bs h1 h2]
    have : x.1.data = y.1.data := key _ _ h.1 h'.1
    exact absurd (String.ext this) h.2⟩

/-- JSON object rendering of a payload with keys sorted ascending:
`json.dumps(payload, sort_keys=True)` with default separators. -/
def jsonDumpsSorted (payload : Args) : String :=
  let sorted := List.insertionSort keyLe payload
  "\x7b" ++ String.intercalate ", "
    (sorted.map (fun p => jsonStr p.1 ++ ": " ++ jsonVal p.2)) ++ "\x7d"

/-- controls.py `hash_payload`: canonical JSON of the payload,
UTF-8 encoded, SHA-256, lowercase hex. -/
def hash_payload (payload : Args) : String :=
  sha256hex (utf8Bytes (jsonDumpsSorted payload))

/-! ### Python `str()` renderings used in reason/resource strings -/

/-- Python `repr` of a string: single quotes, backslash-escaping quote and
backslash (the characters occurring in this system's data). -/
def pyStrRepr (s : String) : String :=
  "\x27" ++ String.join (s.data.map (fun c =>
    if c = '\\' then "\\\\" else if c.toNat = 0x27 then "\\\x27" else String.mk [c])) ++ "\x27"

/-- Python `repr` of a scalar value. -/
def pyRepr : JVal → String
  | .str s => pyStrRepr s
  | .int n => toString n
  | .bool b => if b then "True" else "False"
  | .null => "None"

/-- Python `str()` of a scalar value, as interpolated by an f-string. -/
def pyStr : JVal → String
  | .str s => s
  | .int n => toString n
  | .bool b => if b then "True" else "False"
  | .null => "None"

/-- Python `str()` of a dict (insertion order, `repr` of keys and values). -/
def pyDictRepr (args : Args) : String :=
  "\x7b" ++ String.intercalate ", "
    (args.map (fun p => pyStrRepr p.1 ++ ": " ++ pyRepr p.2)) ++ "\x7d"

/-- Python `str()` of a set of strings (iteration order is arbitrary in
CPython; rendered here in first-occurrence order). -/
def pySetRepr (xs : List String) : String :=
  "\x7b" ++ String.intercalate ", " (xs.map pyStrRepr) ++ "\x7d"

/-- Python `str()` of a list of strings. -/
def pyListRepr (xs : List String) : String :=
  "[" ++ String.intercalate ", " (xs.map pyStrRepr) ++ "]"

/-! ### NPC Manager data model (src/npc_manager/models.py)

Database tables become lists of row records.  Timestamps are integer
minutes.  UUID4 primary keys of rows that no claim observes
(guardrail events, approvals, executions) are omitted; the ActionRequest
`request_id` is observable (it is echoed in responses) and is supplied to
`execute_action` as an explicit parameter. -/

/-- The `rules_json` document of a PermissionProfile, as used by
`check_permissions`: `allowed_tools` plus the `field_restrictions` map
(the `allowed_endpoints` and `env` entries are never read by the code). -/
structure Rules where
  allowedTools : List String
  fieldRestrictions : List (String × List String)
deriving DecidableEq, Repr

/-- An `agents` row joined with its permission profile's rules. -/
structure AgentRow where
  agentId : String
  status : String
  rules : Rules
deriving DecidableEq, Repr

/-- An `action_requests` row. -/
structure ActionReqRow where
  requestId : String
  agentId : String
  timestamp : Int
  env : String
  actionType : String
  resource : String
  operation : String
  payloadHash : String
  payloadJson : Args
  riskLevel : String
  approvalRequired : Bool
  decision : String
  decisionReason : Option String
deriving DecidableEq, Repr

/-- An `approvals` row (UUID primary key omitted). -/
structure ApprovalRow where
  requestId : String
  status : String
  approver : String
  channel : String
  comment : Option String
  timestamp : Int
deriving DecidableEq, Repr

/-- An `executions` row (UUID primary key omitted). -/
structure ExecutionRow where
  requestId : String
  downstreamSystem : String
  downstreamStatus : Nat
  downstreamResponseHash : Option String
  executedAt : Int
  error : Option String
deriving DecidableEq, Repr

/-- A `guardrail_events` row (UUID primary key omitted). -/
structure GuardrailEventRow where
  requestId : String
  guardrail : String
  triggered : Bool
  details : Args
  timestamp : Int
deriving DecidableEq, Repr

/-- The `manager_controls` singleton row. -/
structure ControlRow where
  id : Nat
  globalKillSwitch : Bool
deriving DecidableEq, Repr

/-- The NPC Manager datastore. -/
structure ManagerDB where
  agents : List AgentRow
  control : Option ControlRow
  actionRequests : List ActionReqRow
  approvals : List ApprovalRow
  executions : List ExecutionRow
  guardrailEvents : List GuardrailEventRow
deriving DecidableEq, Repr

/-- A Ticketing `customers` row (fields the Manager code reads). -/
structure CustomerRow where
  id : Int
  name : String
  email : String
  doNotContact : Bool
deriving DecidableEq, Repr

/-! ### controls.py -/

/-- controls.py `get_manager_control`: singleton fetch, lazily creating
the row with the kill switch off. -/
def get_manager_control (db : ManagerDB) : ControlRow × ManagerDB :=
  match db.control with
  | some c => (c, db)
  | none => (⟨1, false⟩, { db with control := some ⟨1, false⟩ })

/-- controls.py `check_kill_switch`. -/
def check_kill_switch (db : ManagerDB) : Bool × ManagerDB :=
  let c := get_manager_control db
  (c.1.globalKillSwitch, c.2)

/-- The `tool_to_action` dict in `classify_risk`. -/
def toolToAction : List (String × String) :=
  [("list_tickets", "read"), ("update_ticket", "write"), ("send_customer_email", "external")]

/-- controls.py `classify_risk`: returns `(action_type, risk_level)`. -/
def classify_risk (toolName : String) (toolArgs : Args) (env : String) : String × String :=
  let actionType := ((toolToAction.find? (fun p => p.1 = toolName)).map Prod.snd).getD "write"
  let riskLevel :=
    if actionType = "read" then "low"
    else if actionType = "write" then
      if getArg toolArgs "status" = some (.str "closed") ∨
         getArg toolArgs "status" = some (.str "deleted") then "high"
      else if env = "prod" then "medium" else "low"
    else if actionType = "external" then "high"
    else "medium"
  (actionType, riskLevel)

/-- `profile.rules_json.get("field_restrictions", \x7b\x7d).get("update_ticket", [])`. -/
def updateTicketFieldRestrictions (rules : Rules) : List String :=
  ((rules.fieldRestrictions.find? (fun p => p.1 = "update_ticket")).map Prod.snd).getD []

/-- controls.py `check_permissions`: returns `(allowed, reason)`. -/
def check_permissions (agent : AgentRow) (toolName : String) (toolArgs : Args) :
    Bool × Option String :=
  let allowedTools := agent.rules.allowedTools
  if toolName ∉ allowedTools then
    (false, some ("Tool \x27" ++ toolName ++ "\x27 not in allowed_tools"))
  else if toolName = "update_ticket" then
    let allowedFields := updateTicketFieldRestrictions agent.rules
    if allowedFields ≠ [] then
      let provided := toolArgs.map Prod.fst
      if ¬ (∀ k ∈ provided, k ∈ allowedFields) then
        let disallowed := (provided.filter (fun k => k ∉ allowedFields)).dedup
        (false, some ("Fields " ++ pySetRepr disallowed ++ " not allowed. Allowed: " ++
          pyListRepr allowedFields))
      else (true, none)
    else (true, none)
  else (true, none)

/-- controls.py `requires_approval`. -/
def requires_approval (actionType riskLevel env : String) : Bool :=
  if riskLevel = "high" then true
  else if riskLevel = "medium" ∧ env = "prod" then true
  else false

/-- Python truthiness of an optional session-id string. -/
def sessionTruthy : Option String → Bool
  | none => false
  | some s => s ≠ ""

/-- The count query of `check_guardrail_max_updates`: this agent's
ActionRequest rows with action_type `write`, decision `allow`, and
timestamp at or after `timeWindow`. -/
def writeAllowCount (db : ManagerDB) (agentId : String) (timeWindow : Int) : Nat :=
  (db.actionRequests.filter (fun r =>
    r.agentId = agentId ∧ r.actionType = "write" ∧ timeWindow ≤ r.timestamp ∧
    r.decision = "allow")).length

/-- controls.py `check_guardrail_max_updates`: counts this agent's
ActionRequest rows with action_type `write` and decision `allow` inside
a trailing window (24 hours if a session id was supplied, else 5
minutes; times in minutes), denying once the count reaches the limit. -/
def check_guardrail_max_updates (db : ManagerDB) (agentId : String)
    (sessionId : Option String) (now : Int) (maxUpdates : Nat := 5) :
    Bool × Option String :=
  let timeWindow : Int := if sessionTruthy sessionId then now - 24 * 60 else now - 5
  let count := writeAllowCount db agentId timeWindow
  if maxUpdates ≤ count then
    (false, some ("Guardrail: max_ticket_updates_per_run (" ++ toString maxUpdates ++
      ") exceeded. Count: " ++ toString count))
  else (true, none)

/-- controls.py `check_guardrail_do_not_contact`: returns
`(allowed, reason, customer_id)`; reads the Ticketing store's customers
directly (the cross-database query noted in the source). -/
def check_guardrail_do_not_contact (customers : List CustomerRow)
    (toolName : String) (toolArgs : Args) : Bool × Option String × Option JVal :=
  if toolName ≠ "send_customer_email" then (true, none, none)
  else
    let customerId := getArg toolArgs "customer_id"
    if jtruthy customerId = false then (true, none, none)
    else
      match customers.find? (fun c => customerId = some (.int c.id)) with
      | some c =>
        if c.doNotContact then
          (false, some ("Guardrail: Customer " ++ pyStr (customerId.getD .null) ++
            " has do_not_contact flag set"), customerId)
        else (true, none, customerId)
      | none => (true, none, customerId)

/-- controls.py `create_guardrail_event`: append one guardrail event row
(absent details stored as the empty object). -/
def create_guardrail_event (db : ManagerDB) (requestId guardrailName : String)
    (triggered : Bool) (details : Option Args) (now : Int) : ManagerDB :=
  { db with guardrailEvents := db.guardrailEvents ++
      [⟨requestId, guardrailName, triggered, details.getD [], now⟩] }

/-! ### approval.py -/

/-- approval.py `request_approval`: the interactive CLI answer becomes
the `approved` parameter.  Appends one Approval row and sets the action
request's decision from the outcome. -/
def request_approval (db : ManagerDB) (reqId : String) (approved : Bool)
    (comment : Option String) (now : Int) : Bool × ManagerDB :=
  let row : ApprovalRow :=
    ⟨reqId, if approved then "approved" else "rejected", "cli_user", "cli", comment, now⟩
  let db1 : ManagerDB := { db with approvals := db.approvals ++ [row] }
  let db2 : ManagerDB := { db1 with actionRequests := db1.actionRequests.map (fun r =>
    if r.requestId = reqId then
      { r with decision := if approved then "allow" else "deny",
               decisionReason := some ("Approval " ++
                 (if approved then "approved" else "rejected") ++ " via cli") }
    else r) }
  (approved, db2)

/-! ### main.py -/

/-- The body of an `/action` request (`ActionRequestModel`). -/
structure ActionRequestModel where
  agentId : String
  sessionId : Option String := none
  toolName : String
  toolArgs : Args
  env : String := "prod"
deriving DecidableEq, Repr

/-- The structured `/action` response (`ActionResponse`). -/
structure ActionResponse where
  requestId : String
  status : String
  decision : String
  result : Option Args := none
  reason : Option String := none
deriving DecidableEq, Repr

/-- A FastAPI `HTTPException`: status code and detail string. -/
structure HTTPExc where
  status : Nat
  detail : String
deriving DecidableEq, Repr

/-- Python `str()` of an `HTTPException` (Starlette renders
`f"\x7bstatus_code\x7d: \x7bdetail\x7d"`). -/
def httpExcStr (e : HTTPExc) : String := toString e.status ++ ": " ++ e.detail

/-- One entry of `TOOL_ENDPOINT_MAP`. -/
structure EndpointMapping where
  method : String
  pathTemplate : String
  queryParams : Bool := false
  body : Bool := false
deriving DecidableEq, Repr

/-- main.py `TOOL_ENDPOINT_MAP`. -/
def TOOL_ENDPOINT_MAP : List (String × EndpointMapping) :=
  [("list_tickets", { method := "GET", pathTemplate := "/tickets", queryParams := true }),
   ("update_ticket",
    { method := "PATCH", pathTemplate := "/tickets/\x7bticket_id\x7d", body := true }),
   ("send_customer_email",
    { method := "POST", pathTemplate := "/customers/\x7bcustomer_id\x7d/email", body := true })]

/-- main.py `map_tool_to_endpoint`: returns `(method, path, body)` or an
HTTPException.  The final fallthrough (a tool present in the map but not
handled by any branch) cannot occur: the map's keys are exactly the
three handled tools. -/
def map_tool_to_endpoint (toolName : String) (toolArgs : Args) :
    Except HTTPExc (String × String × Option Args) :=
  match (TOOL_ENDPOINT_MAP.find? (fun p => p.1 = toolName)).map Prod.snd with
  | none => .error ⟨400, "Unknown tool: " ++ toolName⟩
  | some mapping =>
    if toolName = "list_tickets" then .ok (mapping.method, "/tickets", none)
    else if toolName = "update_ticket" then
      let ticketId := getArg toolArgs "ticket_id"
      if jtruthy ticketId = false then .error ⟨400, "ticket_id required for update_ticket"⟩
      else .ok (mapping.method, "/tickets/" ++ pyStr (ticketId.getD .null),
        some (toolArgs.filter (fun p => p.1 ≠ "ticket_id")))
    else if toolName = "send_customer_email" then
      let customerId := getArg toolArgs "customer_id"
      if jtruthy customerId = false then
        .error ⟨400, "customer_id required for send_customer_email"⟩
      else .ok (mapping.method, "/customers/" ++ pyStr (customerId.getD .null) ++ "/email",
        some (toolArgs.filter (fun p => p.1 ≠ "customer_id")))
    else .ok (mapping.method, mapping.pathTemplate, none)

/-- main.py `get_agent`: find the agent, 404 if absent, 403 if not active. -/
def get_agent (db : ManagerDB) (agentId : String) : Except HTTPExc AgentRow :=
  match db.agents.find? (fun a => a.agentId = agentId) with
  | none => .error ⟨404, "Agent " ++ agentId ++ " not found"⟩
  | some a =>
    if a.status ≠ "active" then
      .error ⟨403, "Agent " ++ agentId ++ " is not active (status: " ++ a.status ++ ")"⟩
    else .ok a

/-- The outcome of the downstream `httpx` call, external to the Manager:
either some exception during transport/decoding, or an HTTP response
(status, decoded JSON body, raw text). -/
inductive DownstreamOutcome where
  | transportError (msg : String)
  | httpResponse (status : Nat) (jsonBody : Args) (text : String)
deriving DecidableEq, Repr

/-- Rewrite the ActionRequest row with the given request id (the ORM
object mutation plus commit in the source). -/
def updateRequest (db : ManagerDB) (reqId : String) (f : ActionReqRow → ActionReqRow) :
    ManagerDB :=
  { db with actionRequests := db.actionRequests.map (fun r =>
      if r.requestId = reqId then f r else r) }

/-- main.py `execute_action` step 5 (lines 200-241): evaluate the
write-limit guardrail when the action type is `write` (recording one
event either way) and then the do-not-contact guardrail (recording an
event only when it triggers or when the tool is `send_customer_email`).
Returns `((allowed, deny_reason), db)`. -/
def guardrailStage (db : ManagerDB) (customers : List CustomerRow)
    (actionType toolName : String) (toolArgs : Args) (agentId : String)
    (sessionId : Option String) (reqId : String) (now : Int) :
    (Bool × Option String) × ManagerDB :=
  let step1 : (Bool × Option String) × ManagerDB :=
    if actionType = "write" then
      let g := check_guardrail_max_updates db agentId sessionId now
      if g.1 = false then
        ((false, g.2), create_guardrail_event db reqId "max_ticket_updates_per_run" true
          (some [("reason", match g.2 with | some s => .str s | none => .null)]) now)
      else
        ((true, none), create_guardrail_event db reqId "max_ticket_updates_per_run" false none now)
    else ((true, none), db)
  if step1.1.1 = false then step1
  else
    let db1 := step1.2
    let g2 := check_guardrail_do_not_contact customers toolName toolArgs
    if g2.1 = false then
      ((false, g2.2.1), create_guardrail_event db1 reqId
        "block_external_email_if_customer_do_not_contact" true
        (some [("customer_id", (g2.2.2).getD .null)]) now)
    else
      ((true, none),
       if toolName = "send_customer_email" then
         create_guardrail_event db1 reqId
           "block_external_email_if_customer_do_not_contact" false none now
       else db1)

/-- main.py `execute_action` exception handler (lines 286-300): record an
Execution row with synthetic status 500 and the error text, set the
request's decision to deny citing the execution error, and re-raise as
an HTTP 500 service error. -/
def execErrorPath (db : ManagerDB) (reqId : String) (now : Int) (msg : String) :
    Except HTTPExc ActionResponse × ManagerDB :=
  let db := { db with executions := db.executions ++
    [⟨reqId, "business_api", 500, none, now, some msg⟩] }
  let db := updateRequest db reqId (fun r =>
    { r with decision := "deny", decisionReason := some ("Execution error: " ++ msg) })
  (.error ⟨500, "Downstream API error: " ++ msg⟩, db)

/-- main.py `execute_action` steps 8-11 (lines 264-334): map the tool to
an endpoint (an HTTPException here is caught by the surrounding `try`),
perform the downstream call, record the Execution row, settle the
request's decision from the downstream status, and build the response. -/
def dispatchStage (db : ManagerDB) (toolName : String) (toolArgs : Args)
    (reqId : String) (now : Int) (downstream : DownstreamOutcome) :
    Except HTTPExc ActionResponse × ManagerDB :=
  match map_tool_to_endpoint toolName toolArgs with
  | .error e => execErrorPath db reqId now (httpExcStr e)
  | .ok (method, _path, _body) =>
    if method = "GET" ∨ method = "PATCH" ∨ method = "POST" then
      match downstream with
      | .transportError msg => execErrorPath db reqId now msg
      | .httpResponse status jsonBody text =>
        let responseData := if status < 400 then jsonBody else [("error", .str text)]
        let db := { db with executions := db.executions ++
          [⟨reqId, "business_api", status, some (hash_payload responseData), now, none⟩] }
        let db := updateRequest db reqId (fun r =>
          { r with decision := if status < 400 then "allow" else "deny",
                   decisionReason := some (if status < 400 then "Executed successfully"
                     else "HTTP " ++ toString status) })
        if 400 ≤ status then
          (.ok ⟨reqId, "error", "deny", some responseData,
            some ("Downstream API returned " ++ toString status)⟩, db)
        else (.ok ⟨reqId, "executed", "allow", some responseData, none⟩, db)
    else execErrorPath db reqId now (httpExcStr ⟨500, "Unsupported method: " ++ method⟩)

/-- `agent_id = x_agent_id or action_request.agent_id` (Python `or`:
an empty header string also falls back to the body field). -/
def resolveAgentId (xAgentId : Option String) (req : ActionRequestModel) : String :=
  match xAgentId with
  | some s => if s = "" then req.agentId else s
  | none => req.agentId

/-- main.py `execute_action` steps 2-11 (everything after the kill-switch
check): risk classification, the ActionRequest record, permissions,
guardrails, approval, downstream dispatch. -/
def processAction (db : ManagerDB) (customers : List CustomerRow)
    (req : ActionRequestModel) (agent : AgentRow) (agentId reqId : String)
    (now : Int) (approved : Bool) (approvalComment : Option String)
    (downstream : DownstreamOutcome) : Except HTTPExc ActionResponse × ManagerDB :=
  let cls := classify_risk req.toolName req.toolArgs req.env
      let record : ActionReqRow :=
        { requestId := reqId, agentId := agentId, timestamp := now, env := req.env,
          actionType := cls.1,
          resource := req.toolName ++ "/" ++ pyDictRepr req.toolArgs,
          operation := ((TOOL_ENDPOINT_MAP.find? (fun p => p.1 = req.toolName)).map
            (fun p => p.2.method)).getD "UNKNOWN",
          payloadHash := hash_payload req.toolArgs, payloadJson := req.toolArgs,
          riskLevel := cls.2, approvalRequired := false, decision := "pending",
          decisionReason := none }
      let perm := check_permissions agent req.toolName req.toolArgs
      if perm.1 = false then
        (.ok ⟨reqId, "denied", "deny", none, perm.2⟩,
         { db with actionRequests := db.actionRequests ++
             [{ record with decision := "deny", decisionReason := perm.2 }] })
      else
        let g := guardrailStage db customers cls.1 req.toolName req.toolArgs agentId
          req.sessionId reqId now
        if g.1.1 = false then
          (.ok ⟨reqId, "denied", "deny", none, g.1.2⟩,
           { g.2 with actionRequests := g.2.actionRequests ++
               [{ record with decision := "deny", decisionReason := g.1.2 }] })
        else
          let approvalRequired := requires_approval cls.1 cls.2 req.env
          let db := { g.2 with actionRequests := g.2.actionRequests ++
            [{ record with approvalRequired := approvalRequired }] }
          if approvalRequired then
            let ra := request_approval db reqId approved approvalComment now
            if ra.1 = false then
              (.ok ⟨reqId, "denied", "deny", none, some "Approval rejected"⟩, ra.2)
            else dispatchStage ra.2 req.toolName req.toolArgs reqId now downstream
          else dispatchStage db req.toolName req.toolArgs reqId now downstream

/-- main.py `execute_action` (`POST /action`): the full control pipeline.
External effects are explicit parameters: `xAgentId` the optional
X-Agent-ID header, `reqId` the generated request UUID, `now` the clock,
`approved`/`approvalComment` the CLI approval answer, `downstream` the
downstream HTTP outcome.  Returns the endpoint result (structured
response or raised HTTPException) and the final Manager store. -/
def execute_action (db₀ : ManagerDB) (customers : List CustomerRow)
    (req : ActionRequestModel) (xAgentId : Option String) (reqId : String)
    (now : Int) (approved : Bool) (approvalComment : Option String)
    (downstream : DownstreamOutcome) : Except HTTPExc ActionResponse × ManagerDB :=
  let agentId := resolveAgentId xAgentId req
  match get_agent db₀ agentId with
  | .error e => (.error e, db₀)
  | .ok agent =>
    let ks := check_kill_switch db₀
    if ks.1 = true then
      (.ok ⟨"", "denied", "deny", none, some "Global kill switch is enabled"⟩, ks.2)
    else
      processAction ks.2 customers req agent agentId reqId now approved approvalComment
        downstream

/-! ### Ticketing API (src/ticketing_api/main.py) -/

/-- A Ticketing `tickets` row. -/
structure TicketRow where
  id : Int
  customerId : Int
  title : String
  description : Option String
  status : String
  createdAt : Int
  resolvedAt : Option Int
deriving DecidableEq, Repr

/-- The `TicketUpdate` request body: all three fields optional. -/
structure TicketUpdate where
  status : Option String := none
  title : Option String := none
  description : Option String := none
deriving DecidableEq, Repr

/-- Replace the first row with the given id (the ORM mutates the row
returned by `.first()`). -/
def replaceFirstTicket : List TicketRow → Int → TicketRow → List TicketRow
  | [], _, _ => []
  | t :: ts, tid, t' =>
    if t.id = tid then t' :: ts else t :: replaceFirstTicket ts tid t'

/-- ticketing_api/main.py `update_ticket` (`PATCH /tickets/\x7bid\x7d`):
404 for an unknown ticket; otherwise applies each supplied field, stamps
`resolved_at` with the current instant when the supplied status is
`resolved` or `closed`, and returns the updated row. -/
def update_ticket (tickets : List TicketRow) (ticketId : Int) (upd : TicketUpdate)
    (now : Int) : Except HTTPExc TicketRow × List TicketRow :=
  match tickets.find? (fun t => t.id = ticketId) with
  | none => (.error ⟨404, "Ticket not found"⟩, tickets)
  | some t =>
    let t1 := match upd.status with
      | some s =>
        { t with status := s,
                 resolvedAt := if s = "resolved" ∨ s = "closed" then some now
                   else t.resolvedAt }
      | none => t
    let t2 := match upd.title with
      | some ti => { t1 with title := ti }
      | none => t1
    let t3 := match upd.description with
      | some d => { t2 with description := some d }
      | none => t2
    (.ok t3, replaceFirstTicket tickets ticketId t3)

/-! ### Seeded state (src/scripts/setup_db.py) -/

/-- The `write_prod_with_approval` profile's rules, as seeded. -/
def seededRulesWriteProd : Rules :=
  { allowedTools := ["list_tickets", "update_ticket", "send_customer_email"],
    fieldRestrictions := [("update_ticket", ["status"])] }

/-- The seeded agent `agent-support-001` (active, bound to
`write_prod_with_approval`). -/
def seededAgent : AgentRow :=
  { agentId := "agent-support-001", status := "active", rules := seededRulesWriteProd }

/-- The Manager store right after seeding: one agent, the kill switch
off, no audit rows. -/
def seededManagerDB : ManagerDB :=
  { agents := [seededAgent], control := some ⟨1, false⟩, actionRequests := [],
    approvals := [], executions := [], guardrailEvents := [] }

/-- The two seeded Ticketing customers (customer 2 has do_not_contact). -/
def seededCustomers : List CustomerRow :=
  [⟨1, "John Doe", "john.doe@example.com", false⟩,
   ⟨2, "Jane Smith", "jane.smith@example.com", true⟩]

/-! ## Theorems

Helper lemmas first, then one theorem per claim (C1-C10), each with its
witness or counterexample. -/

/-- Two permutations of a payload with distinct keys have the same
key-sorted form. -/
theorem keySorted_unique {l₁ l₂ : List (String × JVal)} (hp : l₁.Perm l₂)
    (hn : (l₁.map Prod.fst).Nodup)
    (hs₁ : l₁.Sorted keyLe) (hs₂ : l₂.Sorted keyLe) : l₁ = l₂ := by
  have hn₂ : (l₂.map Prod.fst).Nodup := ((hp.map Prod.fst).nodup_iff).mp hn
  have hne₁ : l₁.Pairwise (fun a b : String × JVal => a.1 ≠ b.1) :=
    (List.pairwise_map).mp hn
  have hne₂ : l₂.Pairwise (fun a b : String × JVal => a.1 ≠ b.1) :=
    (List.pairwise_map).mp hn₂
  exact List.eq_of_perm_of_sorted (r := keyLt) hp (hs₁.and hne₁) (hs₂.and hne₂)

/-- The guardrail stage only appends guardrail events: the ActionRequest
and Execution tables pass through unchanged. -/
theorem guardrailStage_actionRequests (db : ManagerDB) (customers : List CustomerRow)
    (aT tN : String) (tA : Args) (aId : String) (sId : Option String) (rId : String)
    (now : Int) :
    (guardrailStage db customers aT tN tA aId sId rId now).2.actionRequests =
      db.actionRequests ∧
    (guardrailStage db customers aT tN tA aId sId rId now).2.executions =
      db.executions := by
  unfold guardrailStage create_guardrail_event
  by_cases h4 : tN = "send_customer_email"
  · subst h4
    by_cases h1 : aT = "write" <;>
      by_cases h2 : (check_guardrail_max_updates db aId sId now).1 = false <;>
        by_cases h3 : (check_guardrail_do_not_contact customers "send_customer_email" tA).1
            = false <;>
          simp [h1, h2, h3]
  · by_cases h1 : aT = "write" <;>
      by_cases h2 : (check_guardrail_max_updates db aId sId now).1 = false <;>
        by_cases h3 : (check_guardrail_do_not_contact customers tN tA).1 = false <;>
          simp [h1, h2, h3, h4]

/-- Rewriting the row with a fresh request id only touches the appended
row. -/
theorem updateRequest_map_append (l : List ActionReqRow) (rec : ActionReqRow)
    (rid : String) (f : ActionReqRow → ActionReqRow)
    (hfresh : ∀ r ∈ l, r.requestId ≠ rid) (hrec : rec.requestId = rid) :
    (l ++ [rec]).map (fun r => if r.requestId = rid then f r else r) = l ++ [f rec] := by
  induction l with
  | nil => simp [hrec]
  | cons a l ih =>
    have ha := hfresh a (List.mem_cons_self a l)
    simp only [List.cons_append, List.map_cons, if_neg ha]
    rw [ih (fun r hr => hfresh r (List.mem_cons_of_mem a hr))]

/-- When the tool maps to a well-formed endpoint and the transport fails,
the dispatch stage lands in the exception handler. -/
theorem dispatchStage_transportError (db : ManagerDB) (tN : String) (tA : Args)
    (rId : String) (now : Int) (msg : String) (mpb : String × String × Option Args)
    (hmap : map_tool_to_endpoint tN tA = .ok mpb)
    (hmeth : mpb.1 = "GET" ∨ mpb.1 = "PATCH" ∨ mpb.1 = "POST") :
    dispatchStage db tN tA rId now (.transportError msg) =
      execErrorPath db rId now msg := by
  obtain ⟨m, p, b⟩ := mpb
  unfold dispatchStage
  rw [hmap]
  simp only at hmeth
  simp [hmeth]

/-- Shape of the exception handler's rewrite of the appended request row. -/
theorem execError_actionRequests (l : List ActionReqRow) (rec : ActionReqRow)
    (rid : String) (now : Int) (msg : String)
    (hfresh : ∀ r ∈ l, r.requestId ≠ rid) (hrec : rec.requestId = rid) :
    ∃ rec' : ActionReqRow,
      (l ++ [rec]).map (fun r => if r.requestId = rid then
        ({ r with decision := "deny",
                  decisionReason := some ("Execution error: " ++ msg) } : ActionReqRow)
        else r) = l ++ [rec'] ∧
      rec'.requestId = rid ∧ rec'.decision = "deny" ∧
      rec'.decisionReason = some ("Execution error: " ++ msg) :=
  ⟨{ rec with decision := "deny", decisionReason := some ("Execution error: " ++ msg) },
   updateRequest_map_append l rec rid _ hfresh hrec, hrec, rfl, rfl⟩


/-- C4: the permission check denies exactly when the tool is outside the
profile's allowed-tools list (reason naming the tool), or the tool is
update_ticket with a non-empty field-restriction list and some supplied
argument key outside that list (reason naming the disallowed keys);
otherwise it allows. -/
theorem c4_check_permissions (agent : AgentRow) (toolName : String) (toolArgs : Args) :
    ((check_permissions agent toolName toolArgs).1 = false ↔
      toolName ∉ agent.rules.allowedTools ∨
      (toolName = "update_ticket" ∧ updateTicketFieldRestrictions agent.rules ≠ [] ∧
        ∃ k ∈ toolArgs.map Prod.fst, k ∉ updateTicketFieldRestrictions agent.rules)) ∧
    (toolName ∉ agent.rules.allowedTools →
      (check_permissions agent toolName toolArgs).2 =
        some ("Tool \x27" ++ toolName ++ "\x27 not in allowed_tools")) ∧
    (toolName ∈ agent.rules.allowedTools → toolName = "update_ticket" →
      updateTicketFieldRestrictions agent.rules ≠ [] →
      (∃ k ∈ toolArgs.map Prod.fst, k ∉ updateTicketFieldRestrictions agent.rules) →
      (check_permissions agent toolName toolArgs).2 =
        some ("Fields " ++
          pySetRepr (((toolArgs.map Prod.fst).filter
            (fun k => k ∉ updateTicketFieldRestrictions agent.rules)).dedup) ++
          " not allowed. Allowed: " ++ pyListRepr (updateTicketFieldRestrictions agent.rules))) := by
  unfold check_permissions
  by_cases hmem : toolName ∈ agent.rules.allowedTools
  · rw [if_neg (not_not_intro hmem)]
    by_cases hut : toolName = "update_ticket"
    · subst hut
      rw [if_pos rfl]
      by_cases hre : updateTicketFieldRestrictions agent.rules = []
      · rw [if_neg (not_not_intro hre)]
        refine ⟨?_, fun h => absurd hmem h, fun _ _ hre' _ => absurd hre hre'⟩
        constructor
        · intro h; simp at h
        · rintro (h | ⟨_, hre', _⟩)
          · exact absurd hmem h
          · exact absurd hre hre'
      · rw [if_pos hre]
        by_cases hall : ∀ k ∈ toolArgs.map Prod.fst, k ∈ updateTicketFieldRestrictions agent.rules
        · rw [if_neg (not_not_intro hall)]
          refine ⟨?_, fun h => absurd hmem h, fun _ _ _ hex => ?_⟩
          · constructor
            · intro h; simp at h
            · rintro (h | ⟨_, _, k, hk, hk'⟩)
              · exact absurd hmem h
              · exact absurd (hall k hk) hk'
          · obtain ⟨k, hk, hk'⟩ := hex
            exact absurd (hall k hk) hk'
        · rw [if_pos hall]
          refine ⟨?_, fun h => absurd hmem h, fun _ _ _ _ => rfl⟩
          constructor
          · intro _
            right
            refine ⟨rfl, hre, ?_⟩
            push_neg at hall
            exact hall
          · intro _; rfl
    · rw [if_neg hut]
      refine ⟨?_, fun h => absurd hmem h, fun _ h _ _ => absurd h hut⟩
      constructor
      · intro h; simp at h
      · rintro (h | ⟨h, _, _⟩)
        · exact absurd hmem h
        · exact absurd h hut
  · rw [if_pos hmem]
    refine ⟨?_, fun _ => rfl, fun h => absurd h hmem⟩
    simp [hmem]

/-- C4 witness: concrete denials of both kinds on the seeded profile. -/
theorem c4_witness :
    (("delete_ticket" : String) ∉ seededAgent.rules.allowedTools ∧
      (check_permissions seededAgent "delete_ticket" []).1 = false ∧
      (check_permissions seededAgent "delete_ticket" []).2 =
        some "Tool \x27delete_ticket\x27 not in allowed_tools") ∧
    (("update_ticket" : String) ∈ seededAgent.rules.allowedTools ∧
      (∃ k ∈ ([("title", JVal.str "x")] : Args).map Prod.fst,
        k ∉ updateTicketFieldRestrictions seededAgent.rules) ∧
      (check_permissions seededAgent "update_ticket" [("title", .str "x")]).2 =
        some "Fields \x7b\x27title\x27\x7d not allowed. Allowed: [\x27status\x27]") := by
  refine ⟨⟨by decide, ?_, ?_⟩, ⟨by decide, ⟨"title", by decide, by decide⟩, ?_⟩⟩
  · exact (c4_check_permissions seededAgent "delete_ticket" []).1.mpr (Or.inl (by decide))
  · exact (c4_check_permissions seededAgent "delete_ticket" []).2.1 (by decide)
  · have h := (c4_check_permissions seededAgent "update_ticket" [("title", .str "x")]).2.2
      (by decide) rfl (by decide) ⟨"title", by decide, by decide⟩
    simpa using h

/-- C5: the write-limit guardrail counts the agent's prior write/allow
rows inside a 24-hour window when a session id is supplied and a
5-minute window otherwise, denies exactly when that count is at least 5
with a reason citing the limit and count, and never reads the session id
beyond its presence. -/
theorem c5_max_updates_guardrail (db : ManagerDB) (agentId : String)
    (sessionId : Option String) (now : Int) :
    ((check_guardrail_max_updates db agentId sessionId now).1 = false ↔
      5 ≤ writeAllowCount db agentId
        (if sessionTruthy sessionId then now - 24 * 60 else now - 5)) ∧
    (5 ≤ writeAllowCount db agentId
        (if sessionTruthy sessionId then now - 24 * 60 else now - 5) →
      check_guardrail_max_updates db agentId sessionId now =
        (false, some ("Guardrail: max_ticket_updates_per_run (5) exceeded. Count: " ++
          toString (writeAllowCount db agentId
            (if sessionTruthy sessionId then now - 24 * 60 else now - 5))))) ∧
    (¬ 5 ≤ writeAllowCount db agentId
        (if sessionTruthy sessionId then now - 24 * 60 else now - 5) →
      check_guardrail_max_updates db agentId sessionId now = (true, none)) ∧
    (∀ s1 s2 : String, s1 ≠ "" → s2 ≠ "" →
      check_guardrail_max_updates db agentId (some s1) now =
        check_guardrail_max_updates db agentId (some s2) now) := by
  refine ⟨?_, ?_, ?_, ?_⟩
  · unfold check_guardrail_max_updates
    by_cases h : 5 ≤ writeAllowCount db agentId
        (if sessionTruthy sessionId then now - 24 * 60 else now - 5)
    · rw [if_pos h]; simpa using h
    · rw [if_neg h]; simpa using h
  · intro h
    unfold check_guardrail_max_updates
    rw [if_pos h]
    rfl
  · intro h
    unfold check_guardrail_max_updates
    rw [if_neg h]
  · intro s1 s2 h1 h2
    unfold check_guardrail_max_updates
    simp [sessionTruthy, h1, h2]

/-- C5 witness: five prior allowed writes at the clock instant deny the
sixth with the exact reason string. -/
theorem c5_witness :
    5 ≤ writeAllowCount
        ⟨[seededAgent], some ⟨1, false⟩,
          (List.range 5).map (fun i =>
            ⟨"r" ++ toString i, "agent-support-001", 0, "prod", "write", "", "PATCH", "",
             [], "medium", false, "allow", none⟩),
          [], [], []⟩ "agent-support-001"
        (if sessionTruthy none then (0 : Int) - 24 * 60 else 0 - 5) ∧
    check_guardrail_max_updates
        ⟨[seededAgent], some ⟨1, false⟩,
          (List.range 5).map (fun i =>
            ⟨"r" ++ toString i, "agent-support-001", 0, "prod", "write", "", "PATCH", "",
             [], "medium", false, "allow", none⟩),
          [], [], []⟩ "agent-support-001" none 0 =
      (false, some "Guardrail: max_ticket_updates_per_run (5) exceeded. Count: 5") := by
  refine ⟨by decide, ?_⟩
  have h := (c5_max_updates_guardrail
    ⟨[seededAgent], some ⟨1, false⟩,
      (List.range 5).map (fun i =>
        ⟨"r" ++ toString i, "agent-support-001", 0, "prod", "write", "", "PATCH", "",
         [], "medium", false, "allow", none⟩),
      [], [], []⟩ "agent-support-001" none 0).2.1 (by decide)
  simpa using h

/-- C7: read tools classify (read, low); write-mapped tools, including
unrecognized names, classify write with risk high for status closed or
deleted, else medium in prod and low elsewhere; send_customer_email
classifies (external, high); with the three concrete examples. -/
theorem c7_classify_risk (toolArgs : Args) (env : String) :
    classify_risk "list_tickets" toolArgs env = ("read", "low") ∧
    (∀ toolName, toolName ∉ (["list_tickets", "send_customer_email"] : List String) →
      classify_risk toolName toolArgs env =
        ("write",
          if getArg toolArgs "status" = some (.str "closed") ∨
             getArg toolArgs "status" = some (.str "deleted") then "high"
          else if env = "prod" then "medium" else "low")) ∧
    classify_risk "send_customer_email" toolArgs env = ("external", "high") ∧
    classify_risk "update_ticket" [("status", .str "closed")] "prod" = ("write", "high") ∧
    classify_risk "update_ticket" [("status", .str "in_progress")] "prod" = ("write", "medium") ∧
    classify_risk "update_ticket" [("status", .str "in_progress")] "dev" = ("write", "low") := by
  refine ⟨rfl, ?_, rfl, by decide, by decide, by decide⟩
  intro toolName h
  simp only [List.mem_cons, List.not_mem_nil, or_false, not_or] at h
  obtain ⟨h1, h2⟩ := h
  have h1' : ("list_tickets" : String) ≠ toolName := fun hh => h1 hh.symm
  have h2' : ("send_customer_email" : String) ≠ toolName := fun hh => h2 hh.symm
  by_cases h3 : toolName = "update_ticket"
  · subst h3
    simp [classify_risk, toolToAction, List.find?]
  · have h3' : ("update_ticket" : String) ≠ toolName := fun hh => h3 hh.symm
    simp [classify_risk, toolToAction, List.find?, h1', h2', h3']

/-- C7 witness: an unrecognized tool name defaults to write and picks up
the destructive-status high risk. -/
theorem c7_witness :
    ("frobnicate" : String) ∉ (["list_tickets", "send_customer_email"] : List String) ∧
    classify_risk "frobnicate" [("status", .str "deleted")] "dev" = ("write", "high") := by
  refine ⟨by decide, ?_⟩
  have h := (c7_classify_risk [("status", .str "deleted")] "dev").2.1 "frobnicate" (by decide)
  simpa using h


/-- C8: PATCH /tickets/id applies only the supplied fields; a supplied
status of resolved or closed stamps the resolved time with the current
instant; open or in_progress leaves a previously-set resolved time
unchanged; an absent id fails NotFound; success returns the updated row. -/
theorem c8_update_ticket (tickets : List TicketRow) (ticketId : Int)
    (upd : TicketUpdate) (now : Int) :
    (tickets.find? (fun t => t.id = ticketId) = none →
      update_ticket tickets ticketId upd now = (.error ⟨404, "Ticket not found"⟩, tickets)) ∧
    (∀ t, tickets.find? (fun t => t.id = ticketId) = some t →
      update_ticket tickets ticketId upd now =
        (.ok { t with
            status := upd.status.getD t.status,
            title := upd.title.getD t.title,
            description := match upd.description with
              | some d => some d
              | none => t.description,
            resolvedAt := if upd.status = some "resolved" ∨ upd.status = some "closed"
              then some now else t.resolvedAt },
         replaceFirstTicket tickets ticketId
           { t with
              status := upd.status.getD t.status,
              title := upd.title.getD t.title,
              description := match upd.description with
                | some d => some d
                | none => t.description,
              resolvedAt := if upd.status = some "resolved" ∨ upd.status = some "closed"
                then some now else t.resolvedAt })) ∧
    (∀ t, tickets.find? (fun t => t.id = ticketId) = some t →
      (upd.status = some "open" ∨ upd.status = some "in_progress") →
      ((update_ticket tickets ticketId upd now).1.map TicketRow.resolvedAt) =
        .ok t.resolvedAt) := by
  refine ⟨?_, ?_, ?_⟩
  · intro h
    unfold update_ticket
    rw [h]
  · intro t h
    unfold update_ticket
    rw [h]
    cases hs : upd.status with
    | none =>
      cases hti : upd.title with
      | none =>
        cases hd : upd.description with
        | none => simp [hs, hti, hd]
        | some d => simp [hs, hti, hd]
      | some ti =>
        cases hd : upd.description with
        | none => simp [hs, hti, hd]
        | some d => simp [hs, hti, hd]
    | some s =>
      by_cases hres : s = "resolved" ∨ s = "closed"
      · cases hti : upd.title with
        | none =>
          cases hd : upd.description with
          | none => simp [hs, hti, hd, hres]
          | some d => simp [hs, hti, hd, hres]
        | some ti =>
          cases hd : upd.description with
          | none => simp [hs, hti, hd, hres]
          | some d => simp [hs, hti, hd, hres]
      · have hres' : ¬(some s = some "resolved" ∨ some s = some "closed") := by
          simpa using hres
        cases hti : upd.title with
        | none =>
          cases hd : upd.description with
          | none => simp [hs, hti, hd, hres, hres']
          | some d => simp [hs, hti, hd, hres, hres']
        | some ti =>
          cases hd : upd.description with
          | none => simp [hs, hti, hd, hres, hres']
          | some d => simp [hs, hti, hd, hres, hres']
  · intro t h hopen
    unfold update_ticket
    rw [h]
    have hs : ∃ s, upd.status = some s ∧ (s = "open" ∨ s = "in_progress") := by
      rcases hopen with h' | h'
      · exact ⟨"open", h', Or.inl rfl⟩
      · exact ⟨"in_progress", h', Or.inr rfl⟩
    obtain ⟨s, hseq, hsval⟩ := hs
    have hnres : ¬(s = "resolved" ∨ s = "closed") := by
      rcases hsval with h' | h' <;> subst h' <;> decide
    rw [hseq]
    cases hti : upd.title with
    | none =>
      cases hd : upd.description with
      | none => simp [hnres, Except.map]
      | some d => simp [hnres, Except.map]
    | some ti =>
      cases hd : upd.description with
      | none => simp [hnres, Except.map]
      | some d => simp [hnres, Except.map]

/-- C8 witness: resolving stamps the clock instant, re-opening keeps the
old resolved time, and a missing ticket is NotFound. -/
theorem c8_witness :
    (([⟨7, 1, "t", none, "open", 0, none⟩] : List TicketRow).find?
        (fun t => t.id = 7) = some ⟨7, 1, "t", none, "open", 0, none⟩ ∧
      update_ticket [⟨7, 1, "t", none, "open", 0, none⟩] 7
          { status := some "resolved" } 5 =
        (.ok ⟨7, 1, "t", none, "resolved", 0, some 5⟩,
         [⟨7, 1, "t", none, "resolved", 0, some 5⟩])) ∧
    ((update_ticket [⟨7, 1, "t", none, "closed", 0, some 3⟩] 7
        { status := some "open" } 5).1.map TicketRow.resolvedAt = .ok (some 3)) ∧
    (update_ticket ([] : List TicketRow) 7 { status := some "open" } 5 =
      (.error ⟨404, "Ticket not found"⟩, [])) := by
  refine ⟨⟨by decide, ?_⟩, ?_, ?_⟩
  · have h := (c8_update_ticket [⟨7, 1, "t", none, "open", 0, none⟩] 7
      { status := some "resolved" } 5).2.1 ⟨7, 1, "t", none, "open", 0, none⟩ (by decide)
    simpa [replaceFirstTicket] using h
  · have h := (c8_update_ticket [⟨7, 1, "t", none, "closed", 0, some 3⟩] 7
      { status := some "open" } 5).2.2 ⟨7, 1, "t", none, "closed", 0, some 3⟩
      (by decide) (Or.inl rfl)
    simpa using h
  · exact (c8_update_ticket ([] : List TicketRow) 7 { status := some "open" } 5).1 (by decide)

/-- C9: hash_payload canonicalizes as key-sorted JSON before hashing, so
two payloads equal as key-value sets (with distinct keys) hash
identically. -/
theorem c9_hash_payload_order_independent (m₁ m₂ : Args) (hperm : m₁.Perm m₂)
    (hnodup : (m₁.map Prod.fst).Nodup) : hash_payload m₁ = hash_payload m₂ := by
  have h₁ := List.perm_insertionSort keyLe m₁
  have h₂ := List.perm_insertionSort keyLe m₂
  have hp : (List.insertionSort keyLe m₁).Perm (List.insertionSort keyLe m₂) :=
    (h₁.trans hperm).trans h₂.symm
  have hn : ((List.insertionSort keyLe m₁).map Prod.fst).Nodup :=
    ((h₁.map Prod.fst).nodup_iff).mpr hnodup
  have heq : List.insertionSort keyLe m₁ = List.insertionSort keyLe m₂ :=
    keySorted_unique hp hn (List.sorted_insertionSort keyLe m₁)
      (List.sorted_insertionSort keyLe m₂)
  unfold hash_payload jsonDumpsSorted
  rw [heq]

set_option maxRecDepth 100000 in
/-- C9 witness: the two key orders of the spec's example give the same
digest, and that digest is the SHA-256 of the canonical JSON. -/
theorem c9_witness :
    (([("a", JVal.int 1), ("b", JVal.int 2)] : Args).Perm
        [("b", JVal.int 2), ("a", JVal.int 1)] ∧
      (([("a", JVal.int 1), ("b", JVal.int 2)] : Args).map Prod.fst).Nodup) ∧
    hash_payload [("a", JVal.int 1), ("b", JVal.int 2)] =
      hash_payload [("b", JVal.int 2), ("a", JVal.int 1)] ∧
    hash_payload [("a", JVal.int 1), ("b", JVal.int 2)] =
      "d8497d9d82770a70729261095aa98f7ef5154d7af499f8037b6ca250296785a6" :=
  ⟨⟨by decide, by decide⟩,
   c9_hash_payload_order_independent _ _ (by decide) (by decide), by rfl⟩

/-- C10: the do-not-contact guardrail denies exactly when the tool is
send_customer_email with a truthy customer_id matching a stored customer
whose do_not_contact flag is set; in every other case, including a
nonexistent customer, it allows. -/
theorem c10_do_not_contact (customers : List CustomerRow) (toolName : String)
    (toolArgs : Args) (hids : (customers.map CustomerRow.id).Nodup) :
    ((check_guardrail_do_not_contact customers toolName toolArgs).1 = false ↔
      (toolName = "send_customer_email" ∧
       jtruthy (getArg toolArgs "customer_id") = true ∧
       ∃ c ∈ customers, getArg toolArgs "customer_id" = some (.int c.id) ∧
         c.doNotContact = true)) ∧
    ((∀ c ∈ customers, getArg toolArgs "customer_id" ≠ some (.int c.id)) →
      (check_guardrail_do_not_contact customers toolName toolArgs).1 = true) := by
  have hmain : (check_guardrail_do_not_contact customers toolName toolArgs).1 = false ↔
      (toolName = "send_customer_email" ∧
       jtruthy (getArg toolArgs "customer_id") = true ∧
       ∃ c ∈ customers, getArg toolArgs "customer_id" = some (.int c.id) ∧
         c.doNotContact = true) := by
    unfold check_guardrail_do_not_contact
    by_cases ht : toolName = "send_customer_email"
    · rw [if_neg (not_not_intro ht)]
      by_cases hj : jtruthy (getArg toolArgs "customer_id") = true
      · rw [if_neg (by simp [hj])]
        cases hfind : customers.find? (fun c => getArg toolArgs "customer_id" = some (.int c.id)) with
        | none =>
          simp only []
          constructor
          · intro h; simp at h
          · rintro ⟨_, _, c, hc, hcid, hdnc⟩
            have := List.find?_eq_none.mp hfind c hc
            simp [hcid] at this
        | some c0 =>
          have hc0mem : c0 ∈ customers := List.mem_of_find?_eq_some hfind
          have hc0match : getArg toolArgs "customer_id" = some (.int c0.id) := by
            have := List.find?_some hfind
            simpa using this
          by_cases hdnc : c0.doNotContact = true
          · constructor
            · intro _; exact ⟨ht, hj, c0, hc0mem, hc0match, hdnc⟩
            · intro _; simp [hdnc]
          · constructor
            · intro h; simp [hdnc] at h
            · rintro ⟨_, _, c, hc, hcid, hdnc'⟩
              have hideq : c.id = c0.id := by
                rw [hc0match] at hcid
                simpa using hcid.symm
              have : c = c0 :=
                List.inj_on_of_nodup_map hids hc hc0mem (by simpa using hideq)
              rw [this] at hdnc'
              exact absurd hdnc' (by simpa using hdnc)
      · rw [if_pos (by simpa using hj)]
        constructor
        · intro h; simp at h
        · rintro ⟨_, hj', _⟩; exact absurd hj' hj
    · rw [if_pos ht]
      constructor
      · intro h; simp at h
      · rintro ⟨ht', _, _⟩; exact absurd ht' ht
  refine ⟨hmain, fun hnone => ?_⟩
  by_contra hfalse
  have : (check_guardrail_do_not_contact customers toolName toolArgs).1 = false := by
    cases h : (check_guardrail_do_not_contact customers toolName toolArgs).1
    · rfl
    · exact absurd h hfalse
  obtain ⟨_, _, c, hc, hcid, _⟩ := hmain.mp this
  exact absurd hcid (hnone c hc)

/-- C10 witness: emailing seeded customer 2 (flagged) is denied; emailing
the nonexistent customer 99 passes the guardrail. -/
theorem c10_witness :
    ((seededCustomers.map CustomerRow.id).Nodup ∧
      (check_guardrail_do_not_contact seededCustomers "send_customer_email"
        [("customer_id", .int 2)]).1 = false) ∧
    ((check_guardrail_do_not_contact seededCustomers "send_customer_email"
        [("customer_id", .int 99)]).1 = true) := by
  refine ⟨⟨by decide, ?_⟩, ?_⟩
  · exact (c10_do_not_contact seededCustomers "send_customer_email"
      [("customer_id", .int 2)] (by decide)).1.mpr
      ⟨rfl, by decide, seededCustomers.get ⟨1, by decide⟩, by decide, by decide, by decide⟩
  · exact (c10_do_not_contact seededCustomers "send_customer_email"
      [("customer_id", .int 99)] (by decide)).2 (by decide)


set_option maxRecDepth 100000 in
/-- C1 counterexample: at the explicit input (seeded active agent, tool
name "delete_everything"), the call does not fail with a 400; it returns
a structured permission deny, and one ActionRequest row with decision
deny is persisted — refuting "fails with InvalidInput (400) before any
ActionRequest row is persisted". -/
theorem c1_counterexample :
    (execute_action seededManagerDB seededCustomers
        ⟨"agent-support-001", none, "delete_everything", [], "prod"⟩ none "rid-1" 0 true
        none (.transportError "unreachable")).1 =
      .ok ⟨"rid-1", "denied", "deny", none,
        some "Tool \x27delete_everything\x27 not in allowed_tools"⟩ ∧
    ((execute_action seededManagerDB seededCustomers
        ⟨"agent-support-001", none, "delete_everything", [], "prod"⟩ none "rid-1" 0 true
        none (.transportError "unreachable")).2.actionRequests.map
      (fun r => (r.requestId, r.decision))) = [("rid-1", "deny")] := by
  constructor
  · rfl
  · rfl

/-- C1 amended: for every /action call from the seeded active agent whose
tool name is unrecognized, the permission check denies it — a structured
deny response whose reason names the tool, with exactly one ActionRequest
row persisted carrying decision deny — rather than an InvalidInput (400)
before persistence. -/
theorem c1_amended (toolName : String) (toolArgs : Args) (sessionId : Option String)
    (env reqId : String) (now : Int) (approved : Bool) (comment : Option String)
    (downstream : DownstreamOutcome)
    (htool : toolName ∉ seededRulesWriteProd.allowedTools) :
    (execute_action seededManagerDB seededCustomers
        ⟨"agent-support-001", sessionId, toolName, toolArgs, env⟩ none reqId now approved
        comment downstream).1 =
      .ok ⟨reqId, "denied", "deny", none,
        some ("Tool \x27" ++ toolName ++ "\x27 not in allowed_tools")⟩ ∧
    ∃ rec : ActionReqRow,
      (execute_action seededManagerDB seededCustomers
          ⟨"agent-support-001", sessionId, toolName, toolArgs, env⟩ none reqId now approved
          comment downstream).2 =
        { seededManagerDB with actionRequests := [rec] } ∧
      rec.requestId = reqId ∧ rec.decision = "deny" ∧
      rec.decisionReason = some ("Tool \x27" ++ toolName ++ "\x27 not in allowed_tools") := by
  have htool' : toolName ∉ seededAgent.rules.allowedTools := htool
  have hperm : check_permissions seededAgent toolName toolArgs =
      (false, some ("Tool \x27" ++ toolName ++ "\x27 not in allowed_tools")) := by
    simp [check_permissions, htool']
  have ha : get_agent seededManagerDB
      (resolveAgentId none ⟨"agent-support-001", sessionId, toolName, toolArgs, env⟩) =
      .ok seededAgent := rfl
  simp only [execute_action, ha, check_kill_switch, get_manager_control, processAction,
    hperm]
  refine ⟨by simp [seededManagerDB], ?_⟩
  refine ⟨⟨reqId, "agent-support-001", now, env, (classify_risk toolName toolArgs env).1,
    toolName ++ "/" ++ pyDictRepr toolArgs,
    ((TOOL_ENDPOINT_MAP.find? (fun p => p.1 = toolName)).map (fun p => p.2.method)).getD
      "UNKNOWN",
    hash_payload toolArgs, toolArgs, (classify_risk toolName toolArgs env).2, false, "deny",
    some ("Tool \x27" ++ toolName ++ "\x27 not in allowed_tools")⟩, ?_, rfl, rfl, rfl⟩
  simp [seededManagerDB, resolveAgentId]

/-- C1 witness: the amended claim at the concrete tool "launch_rockets". -/
theorem c1_amended_witness :
    ("launch_rockets" : String) ∉ seededRulesWriteProd.allowedTools ∧
    (execute_action seededManagerDB seededCustomers
        ⟨"agent-support-001", none, "launch_rockets", [("x", .int 1)], "prod"⟩ none "rid-2"
        0 false none (.httpResponse 200 [] "")).1 =
      .ok ⟨"rid-2", "denied", "deny", none,
        some ("Tool \x27" ++ "launch_rockets" ++ "\x27 not in allowed_tools")⟩ :=
  ⟨by decide,
   (c1_amended "launch_rockets" [("x", .int 1)] none "prod" "rid-2" 0 false none
     (.httpResponse 200 [] "") (by decide)).1⟩

set_option maxRecDepth 100000 in
/-- C2 counterexample: a fully successful list_tickets call evaluates the
do-not-contact guardrail (the pipeline runs to completion) yet writes no
GuardrailEvent row at all — refuting "writes a row on every evaluation". -/
theorem c2_counterexample :
    (execute_action seededManagerDB seededCustomers
        ⟨"agent-support-001", none, "list_tickets", [], "prod"⟩ none "rid-3" 0 false none
        (.httpResponse 200 [] "[]")).2.guardrailEvents = [] ∧
    (execute_action seededManagerDB seededCustomers
        ⟨"agent-support-001", none, "list_tickets", [], "prod"⟩ none "rid-3" 0 false none
        (.httpResponse 200 [] "[]")).1 =
      .ok ⟨"rid-3", "executed", "allow", some [], none⟩ := by
  constructor
  · rfl
  · rfl

/-- C2 amended: the write-limit guardrail writes exactly one GuardrailEvent
row whenever action_type is write (triggered mirroring its outcome), and
the do-not-contact guardrail — though always evaluated — writes a row
only when it triggers or when the tool is send_customer_email; a passing
evaluation for any other tool writes none. -/
theorem c2_amended (db : ManagerDB) (customers : List CustomerRow)
    (actionType toolName : String) (toolArgs : Args) (agentId : String)
    (sessionId : Option String) (reqId : String) (now : Int) :
    ∃ delta : List GuardrailEventRow,
      (guardrailStage db customers actionType toolName toolArgs agentId sessionId reqId
          now).2.guardrailEvents = db.guardrailEvents ++ delta ∧
      (delta.filter (fun e => e.guardrail = "max_ticket_updates_per_run")).length =
        (if actionType = "write" then 1 else 0) ∧
      (delta.filter (fun e =>
          e.guardrail = "block_external_email_if_customer_do_not_contact")).length =
        (if actionType = "write" ∧
            (check_guardrail_max_updates db agentId sessionId now).1 = false then 0
         else if (check_guardrail_do_not_contact customers toolName toolArgs).1 = false ∨
            toolName = "send_customer_email" then 1
         else 0) ∧
      (∀ e ∈ delta, e.guardrail = "max_ticket_updates_per_run" →
        e.triggered = !(check_guardrail_max_updates db agentId sessionId now).1) ∧
      (∀ e ∈ delta, e.guardrail = "block_external_email_if_customer_do_not_contact" →
        e.triggered = !(check_guardrail_do_not_contact customers toolName toolArgs).1) := by
  unfold guardrailStage create_guardrail_event
  by_cases h1 : actionType = "write"
  · by_cases h2 : (check_guardrail_max_updates db agentId sessionId now).1 = false
    · refine ⟨[⟨reqId, "max_ticket_updates_per_run", true,
        [("reason", match (check_guardrail_max_updates db agentId sessionId now).2 with
          | some s => .str s | none => .null)], now⟩], ?_, ?_, ?_, ?_, ?_⟩ <;>
        simp [h1, h2, List.filter]
    · have hb2 : (check_guardrail_max_updates db agentId sessionId now).1 = true := by
        revert h2; cases (check_guardrail_max_updates db agentId sessionId now).1 <;> simp
      by_cases h3 : (check_guardrail_do_not_contact customers toolName toolArgs).1 = false
      · refine ⟨[⟨reqId, "max_ticket_updates_per_run", false, [], now⟩,
          ⟨reqId, "block_external_email_if_customer_do_not_contact", true,
            [("customer_id",
              ((check_guardrail_do_not_contact customers toolName toolArgs).2.2).getD .null)],
            now⟩], ?_, ?_, ?_, ?_, ?_⟩ <;>
          simp [h1, h2, h3, hb2, List.filter]
      · have hb3 : (check_guardrail_do_not_contact customers toolName toolArgs).1 = true := by
          revert h3; cases (check_guardrail_do_not_contact customers toolName toolArgs).1 <;>
            simp
        by_cases h4 : toolName = "send_customer_email"
        · subst h4
          refine ⟨[⟨reqId, "max_ticket_updates_per_run", false, [], now⟩,
            ⟨reqId, "block_external_email_if_customer_do_not_contact", false, [], now⟩],
            ?_, ?_, ?_, ?_, ?_⟩ <;>
            simp [h1, h2, h3, hb2, hb3, List.filter]
        · refine ⟨[⟨reqId, "max_ticket_updates_per_run", false, [], now⟩],
            ?_, ?_, ?_, ?_, ?_⟩ <;>
            simp [h1, h2, h3, hb2, hb3, h4, List.filter]
  · by_cases h3 : (check_guardrail_do_not_contact customers toolName toolArgs).1 = false
    · refine ⟨[⟨reqId, "block_external_email_if_customer_do_not_contact", true,
        [("customer_id",
          ((check_guardrail_do_not_contact customers toolName toolArgs).2.2).getD .null)],
        now⟩], ?_, ?_, ?_, ?_, ?_⟩ <;>
        simp [h1, h3, List.filter]
    · have hb3 : (check_guardrail_do_not_contact customers toolName toolArgs).1 = true := by
        revert h3; cases (check_guardrail_do_not_contact customers toolName toolArgs).1 <;>
          simp
      by_cases h4 : toolName = "send_customer_email"
      · subst h4
        refine ⟨[⟨reqId, "block_external_email_if_customer_do_not_contact", false, [], now⟩],
          ?_, ?_, ?_, ?_, ?_⟩ <;>
          simp [h1, h3, hb3, List.filter]
      · refine ⟨[], ?_, ?_, ?_, ?_, ?_⟩ <;>
          simp [h1, h3, hb3, h4, List.filter]

/-- C3: while the kill switch is on, every /action call from an active
agent returns the kill-switch deny with no state change (hence no
ActionRequest row); with it off, the call proceeds through the normal
pipeline stages. -/
theorem c3_kill_switch (db : ManagerDB) (customers : List CustomerRow)
    (req : ActionRequestModel) (xAgentId : Option String) (reqId : String) (now : Int)
    (approved : Bool) (comment : Option String) (downstream : DownstreamOutcome)
    (c : ControlRow) (agent : AgentRow)
    (hc : db.control = some c)
    (ha : get_agent db (resolveAgentId xAgentId req) = .ok agent) :
    (c.globalKillSwitch = true →
      execute_action db customers req xAgentId reqId now approved comment downstream =
        (.ok ⟨"", "denied", "deny", none, some "Global kill switch is enabled"⟩, db)) ∧
    (c.globalKillSwitch = false →
      execute_action db customers req xAgentId reqId now approved comment downstream =
        processAction db customers req agent (resolveAgentId xAgentId req) reqId now
          approved comment downstream) := by
  constructor
  · intro h
    simp [execute_action, ha, check_kill_switch, get_manager_control, hc, h]
  · intro h
    simp [execute_action, ha, check_kill_switch, get_manager_control, hc, h]

/-- C3 witness: with the seeded store and the switch flipped on, a
concrete update_ticket call gets the kill-switch deny and identical
store; with the switch off the same call runs the normal pipeline. -/
theorem c3_witness :
    (({ seededManagerDB with control := some ⟨1, true⟩ } : ManagerDB).control =
        some ⟨1, true⟩ ∧
      (⟨1, true⟩ : ControlRow).globalKillSwitch = true ∧
      get_agent { seededManagerDB with control := some ⟨1, true⟩ }
        (resolveAgentId none ⟨"agent-support-001", none, "update_ticket",
          [("ticket_id", .int 7), ("status", .str "resolved")], "prod"⟩) = .ok seededAgent) ∧
    execute_action { seededManagerDB with control := some ⟨1, true⟩ } seededCustomers
        ⟨"agent-support-001", none, "update_ticket",
          [("ticket_id", .int 7), ("status", .str "resolved")], "prod"⟩
        none "rid-1" 0 true none (.httpResponse 200 [] "") =
      (.ok ⟨"", "denied", "deny", none, some "Global kill switch is enabled"⟩,
       { seededManagerDB with control := some ⟨1, true⟩ }) ∧
    execute_action seededManagerDB seededCustomers
        ⟨"agent-support-001", none, "update_ticket",
          [("ticket_id", .int 7), ("status", .str "resolved")], "prod"⟩
        none "rid-1" 0 true none (.httpResponse 200 [] "") =
      processAction seededManagerDB seededCustomers
        ⟨"agent-support-001", none, "update_ticket",
          [("ticket_id", .int 7), ("status", .str "resolved")], "prod"⟩
        seededAgent "agent-support-001" "rid-1" 0 true none (.httpResponse 200 [] "") := by
  refine ⟨⟨rfl, rfl, rfl⟩, ?_, ?_⟩
  · exact (c3_kill_switch { seededManagerDB with control := some ⟨1, true⟩ } seededCustomers
      ⟨"agent-support-001", none, "update_ticket",
        [("ticket_id", .int 7), ("status", .str "resolved")], "prod"⟩
      none "rid-1" 0 true none (.httpResponse 200 [] "") ⟨1, true⟩ seededAgent rfl rfl).1 rfl
  · exact (c3_kill_switch seededManagerDB seededCustomers
      ⟨"agent-support-001", none, "update_ticket",
        [("ticket_id", .int 7), ("status", .str "resolved")], "prod"⟩
      none "rid-1" 0 true none (.httpResponse 200 [] "") ⟨1, false⟩ seededAgent rfl rfl).2 rfl

/-- C6: a call that reaches downstream dispatch and hits a transport
failure records an Execution row with synthetic status 500 and the error
text, rewrites its ActionRequest row to decision deny citing the
execution error, and re-raises a hard HTTP 500 instead of a structured
deny payload. -/
theorem c6_transport_failure (db : ManagerDB) (customers : List CustomerRow)
    (req : ActionRequestModel) (xAgentId : Option String) (reqId : String) (now : Int)
    (approved : Bool) (comment : Option String) (msg : String)
    (c : ControlRow) (agent : AgentRow) (mpb : String × String × Option Args)
    (hc : db.control = some c) (hks : c.globalKillSwitch = false)
    (ha : get_agent db (resolveAgentId xAgentId req) = .ok agent)
    (hfresh : ∀ r ∈ db.actionRequests, r.requestId ≠ reqId)
    (hperm : (check_permissions agent req.toolName req.toolArgs).1 = true)
    (hg : (guardrailStage db customers (classify_risk req.toolName req.toolArgs req.env).1
        req.toolName req.toolArgs (resolveAgentId xAgentId req) req.sessionId reqId
        now).1.1 = true)
    (happ : requires_approval (classify_risk req.toolName req.toolArgs req.env).1
        (classify_risk req.toolName req.toolArgs req.env).2 req.env = false ∨
      approved = true)
    (hmap : map_tool_to_endpoint req.toolName req.toolArgs = .ok mpb)
    (hmeth : mpb.1 = "GET" ∨ mpb.1 = "PATCH" ∨ mpb.1 = "POST") :
    (execute_action db customers req xAgentId reqId now approved comment
        (.transportError msg)).1 = .error ⟨500, "Downstream API error: " ++ msg⟩ ∧
    (execute_action db customers req xAgentId reqId now approved comment
        (.transportError msg)).2.executions =
      db.executions ++ [⟨reqId, "business_api", 500, none, now, some msg⟩] ∧
    ∃ rec : ActionReqRow,
      (execute_action db customers req xAgentId reqId now approved comment
          (.transportError msg)).2.actionRequests = db.actionRequests ++ [rec] ∧
      rec.requestId = reqId ∧ rec.decision = "deny" ∧
      rec.decisionReason = some ("Execution error: " ++ msg) := by
  have hexec : execute_action db customers req xAgentId reqId now approved comment
      (.transportError msg) =
      processAction db customers req agent (resolveAgentId xAgentId req) reqId now
        approved comment (.transportError msg) := by
    simp [execute_action, ha, check_kill_switch, get_manager_control, hc, hks]
  have hgpres := guardrailStage_actionRequests db customers
    (classify_risk req.toolName req.toolArgs req.env).1 req.toolName req.toolArgs
    (resolveAgentId xAgentId req) req.sessionId reqId now
  rw [hexec]
  unfold processAction
  simp only [hperm, hg, Bool.true_eq_false, if_false]
  by_cases hreq : requires_approval (classify_risk req.toolName req.toolArgs req.env).1
      (classify_risk req.toolName req.toolArgs req.env).2 req.env = true
  · have happt : approved = true := happ.resolve_left (by simp [hreq])
    simp only [hreq, if_true, request_approval, happt, Bool.true_eq_false, if_false]
    rw [dispatchStage_transportError _ req.toolName req.toolArgs reqId now msg mpb hmap hmeth]
    simp only [execErrorPath, updateRequest]
    refine ⟨trivial, ?_, ?_⟩
    · simp [hgpres.2]
    · simp only [hgpres.1]
      rw [updateRequest_map_append db.actionRequests _ reqId _ hfresh rfl]
      apply execError_actionRequests db.actionRequests _ reqId now msg hfresh
      simp
  · simp only [hreq, if_false, Bool.false_eq_true]
    rw [dispatchStage_transportError _ req.toolName req.toolArgs reqId now msg mpb hmap hmeth]
    simp only [execErrorPath, updateRequest]
    refine ⟨trivial, ?_, ?_⟩
    · simp [hgpres.2]
    · simp only [hgpres.1]
      apply execError_actionRequests db.actionRequests _ reqId now msg hfresh
      rfl

/-- C6 witness: a concrete list_tickets call against an unreachable
downstream host raises the hard 500 and records the synthetic execution
row and the denied request row. -/
theorem c6_witness :
    (execute_action seededManagerDB seededCustomers
        ⟨"agent-support-001", none, "list_tickets", [], "prod"⟩ none "rid-6" 0 false none
        (.transportError "Connection refused")).1 =
      .error ⟨500, "Downstream API error: " ++ "Connection refused"⟩ ∧
    (execute_action seededManagerDB seededCustomers
        ⟨"agent-support-001", none, "list_tickets", [], "prod"⟩ none "rid-6" 0 false none
        (.transportError "Connection refused")).2.executions =
      seededManagerDB.executions ++
        [⟨"rid-6", "business_api", 500, none, 0, some "Connection refused"⟩] ∧
    ∃ rec : ActionReqRow,
      (execute_action seededManagerDB seededCustomers
          ⟨"agent-support-001", none, "list_tickets", [], "prod"⟩ none "rid-6" 0 false none
          (.transportError "Connection refused")).2.actionRequests =
        seededManagerDB.actionRequests ++ [rec] ∧
      rec.requestId = "rid-6" ∧ rec.decision = "deny" ∧
      rec.decisionReason = some ("Execution error: " ++ "Connection refused") :=
  c6_transport_failure seededManagerDB seededCustomers
    ⟨"agent-support-001", none, "list_tickets", [], "prod"⟩ none "rid-6" 0 false none
    "Connection refused" ⟨1, false⟩ seededAgent ("GET", "/tickets", none)
    rfl rfl rfl (by decide) (by decide) (by decide) (Or.inl (by decide)) rfl (Or.inl rfl)

end NPCM
